import Mathlib

/-!
Shallow embedding of `src/app.py` (AI news dashboard).

The fetcher `fetch_news(query, num)` builds a Google-News RSS search URL,
parses the feed, and for at most `num` entries derives a sanitized article
record (title, link, published, summary).  Strings are modelled as Lean
`String`s (Python `len`/slicing count code points, as does `List Char`
length/take on `String.data`).  Feed entries are records with optional
attributes, mirroring `feedparser`'s dictionaries where `hasattr`/`getattr`
may fail; a direct attribute access on a missing key raises
`AttributeError`, so `fetch_news` is embedded as `Except`-valued.
-/

set_option maxRecDepth 100000

namespace AiNews

/-- One character of `html.escape` (with quoting), from `html.escape`'s
replacement table: `&`, `<`, `>`, `"`, `'` become entities. -/
def escapeChar (c : Char) : List Char :=
  if c = '&' then "&amp;".data
  else if c = '<' then "&lt;".data
  else if c = '>' then "&gt;".data
  else if c = '"' then "&quot;".data
  else if c = '\'' then "&#x27;".data
  else [c]

/-- Full `html.escape` on a string (`escape(...)` at app.py:166-167). -/
def pyEscape (l : List Char) : List Char :=
  (l.map escapeChar).flatten

/-- Characters removed by Python `str.strip()` (Unicode whitespace). -/
def isPySpace (c : Char) : Bool :=
  c = ' ' || c = '\t' || c = '\n' || c = '\r' || c = '\x0b' || c = '\x0c' ||
  c.toNat = 0x1c || c.toNat = 0x1d || c.toNat = 0x1e || c.toNat = 0x1f ||
  c.toNat = 0x85 || c.toNat = 0xa0 || c.toNat = 0x1680 ||
  (0x2000 ≤ c.toNat && c.toNat ≤ 0x200a) ||
  c.toNat = 0x2028 || c.toNat = 0x2029 || c.toNat = 0x202f ||
  c.toNat = 0x205f || c.toNat = 0x3000

/-- Python `str.strip()`: drop leading and trailing whitespace. -/
def pyStrip (l : List Char) : List Char :=
  ((l.dropWhile isPySpace).reverse.dropWhile isPySpace).reverse

/-- Left-to-right scan implementing `re.sub(r"<[^>]+>", "", s)`
(app.py:161).  `buf` holds (reversed) the pending characters of a
potential tag, starting with `'<'`; it is flushed unconsumed when the
input ends before a closing `'>'`, and a `"<>"` with no inner character
is not a match and is emitted as-is. -/
def stripTagsAux : List Char → List Char → List Char
  | buf, [] => buf.reverse
  | buf, c :: cs =>
    if buf.isEmpty then
      if c = '<' then stripTagsAux [c] cs
      else c :: stripTagsAux [] cs
    else
      if c = '>' then
        if 2 ≤ buf.length then stripTagsAux [] cs
        else '<' :: '>' :: stripTagsAux [] cs
      else stripTagsAux (c :: buf) cs

/-- Whole-string `re.sub(r"<[^>]+>", "", s)`: remove every `<...>` run
with at least one non-`>` character between the brackets. -/
def stripTags (l : List Char) : List Char :=
  stripTagsAux [] l

/-- Leap year rule used by `datetime.date`. -/
def isLeap (y : Int) : Bool :=
  y % 4 = 0 && (y % 100 ≠ 0 || y % 400 = 0)

/-- Days in a month, as validated by the `datetime` constructor. -/
def daysInMonth (y mo : Int) : Int :=
  if mo = 2 then (if isLeap y then 29 else 28)
  else if mo = 4 || mo = 6 || mo = 9 || mo = 11 then 30
  else 31

/-- A constructed `datetime.datetime` value (date and time fields). -/
structure DateTime where
  y : Int
  mo : Int
  d : Int
  h : Int
  mi : Int
  s : Int
deriving DecidableEq, Repr

/-- Range checks of the `datetime.datetime` constructor; out-of-range
values raise, which the code catches (app.py:149-154). -/
def mkDateTime (y mo d h mi s : Int) : Option DateTime :=
  if 1 ≤ y && y ≤ 9999 && 1 ≤ mo && mo ≤ 12 && 1 ≤ d && d ≤ daysInMonth y mo
      && 0 ≤ h && h ≤ 23 && 0 ≤ mi && mi ≤ 59 && 0 ≤ s && s ≤ 59 then
    some ⟨y, mo, d, h, mi, s⟩
  else
    none

/-- Call `datetime(*parts)` for a tuple of up to six ints: fewer than
three positional arguments is a `TypeError` (also caught by the code). -/
def pyDatetime : List Int → Option DateTime
  | [y, mo, d] => mkDateTime y mo d 0 0 0
  | [y, mo, d, h] => mkDateTime y mo d h 0 0
  | [y, mo, d, h, mi] => mkDateTime y mo d h mi 0
  | [y, mo, d, h, mi, s] => mkDateTime y mo d h mi s
  | _ => none

/-- Zero-pad the decimal digits of `n` to width `w`. -/
def padNat (w : Nat) (n : Nat) : List Char :=
  let ds := (Nat.toDigits 10 n)
  List.replicate (w - ds.length) '0' ++ ds

/-- Format `dt.strftime("%Y年%m月%d日 %H:%M")` (app.py:152).  On the
hosting platform `%Y` prints the year unpadded while the other fields
are zero-padded to two digits. -/
def strftimeJP (dt : DateTime) : List Char :=
  Nat.toDigits 10 dt.y.toNat ++ "年".data ++ padNat 2 dt.mo.toNat ++ "月".data ++
  padNat 2 dt.d.toNat ++ "日 ".data ++ padNat 2 dt.h.toNat ++ [':'] ++
  padNat 2 dt.mi.toNat

/-- The `try` block of app.py:149-152: build a `datetime` from the first
six fields of the structured time and format it; `none` when the
constructor raises (caught at app.py:153). -/
def formatPublished (parts : List Int) : Option (List Char) :=
  (pyDatetime (parts.take 6)).map strftimeJP

/-- A parsed feed entry: a `feedparser` dictionary whose attributes may
each be absent.  `published_parsed` is a `time.struct_time` modelled as
its list of integer fields (`some []` stands for a present but falsy
value, skipped by the truthiness test at app.py:148). -/
structure Entry where
  title : Option (List Char)
  link : Option (List Char)
  published_parsed : Option (List Int)
  published : Option (List Char)
  summary : Option (List Char)
deriving DecidableEq, Repr

/-- A parsed feed: `feedparser.parse(url)` always returns a result; when
retrieval or parsing fails outright the `entries` list is empty. -/
structure Feed where
  entries : List Entry
deriving DecidableEq, Repr

/-- A sanitized article record (the dict built at app.py:169-174). -/
structure Article where
  title : List Char
  link : List Char
  published : List Char
  summary : List Char
deriving DecidableEq, Repr

/-- The only uncaught exception class in `fetch_news`: a direct attribute
access (`entry.title`, `entry.link`) on an entry missing that key. -/
inductive PyError where
  | attributeError
deriving DecidableEq, Repr

/-- The `published` computation of app.py:146-156: structured time first
(when present and truthy), falling back to the raw `published` text when
formatting raises or no structured time exists, and `""` otherwise. -/
def publishedOf (e : Entry) : List Char :=
  match e.published_parsed with
  | some parts =>
    if parts.isEmpty then
      match e.published with
      | some raw => raw
      | none => []
    else
      match formatPublished parts with
      | some s => s
      | none =>
        match e.published with
        | some raw => raw
        | none => []
  | none =>
    match e.published with
    | some raw => raw
    | none => []

/-- app.py:159-161: `getattr(entry, "summary", "")` with HTML tags
removed and surrounding whitespace stripped. -/
def strippedSummary (e : Entry) : List Char :=
  pyStrip (stripTags (match e.summary with | some s => s | none => []))

/-- app.py:162-163: truncate to 300 characters plus an ellipsis mark. -/
def truncatedSummary (e : Entry) : List Char :=
  if 300 < (strippedSummary e).length then
    (strippedSummary e).take 300 ++ "…".data
  else strippedSummary e

/-- The placeholder used when the summary is empty (app.py:167). -/
def summaryPlaceholder : List Char :=
  "要約はありません。".data

/-- Build one article from one entry (the loop body, app.py:146-174).
`entry.title` and `entry.link` are direct attribute accesses and raise
`AttributeError` when the key is missing; all other accesses are guarded
by `hasattr`/`getattr` defaults. -/
def mkArticle (e : Entry) : Except PyError Article :=
  match e.title, e.link with
  | some t, some l =>
    .ok { title := pyEscape t
          link := l
          published := publishedOf e
          summary := if (truncatedSummary e).isEmpty then summaryPlaceholder
                     else pyEscape (truncatedSummary e) }
  | _, _ => .error .attributeError

/-- One uppercase hex digit, `'0123456789ABCDEF'[n]`. -/
def hexDigit (n : Nat) : Char :=
  ("0123456789ABCDEF".data.getD n '0')

/-- UTF-8 encoding of one code point, as a list of byte values. -/
def utf8Bytes (c : Char) : List Nat :=
  let n := c.toNat
  if n < 0x80 then [n]
  else if n < 0x800 then
    [0xc0 + n / 64, 0x80 + n % 64]
  else if n < 0x10000 then
    [0xe0 + n / 4096, 0x80 + n / 64 % 64, 0x80 + n % 64]
  else
    [0xf0 + n / 262144, 0x80 + n / 4096 % 64, 0x80 + n / 64 % 64, 0x80 + n % 64]

/-- Characters `urllib.parse.quote` leaves unencoded with its default
`safe='/'`: unreserved characters plus `/`. -/
def quoteSafe (c : Char) : Bool :=
  ('A' ≤ c && c ≤ 'Z') || ('a' ≤ c && c ≤ 'z') || ('0' ≤ c && c ≤ '9') ||
  c = '_' || c = '.' || c = '-' || c = '~' || c = '/'

/-- URL-encoding `urllib.parse.quote` (app.py:138): percent-encode the
UTF-8 bytes of every non-safe character, uppercase hex. -/
def pyQuote (l : List Char) : List Char :=
  (l.map fun c =>
    if quoteSafe c then [c]
    else (utf8Bytes c).flatMap fun b => ['%', hexDigit (b / 16), hexDigit (b % 16)]).flatten

/-- The request URL built at app.py:139-142. -/
def buildUrl (query : List Char) : List Char :=
  "https://news.google.com/rss/search?q=".data ++ pyQuote query ++
  "&hl=ja&gl=JP&ceid=JP:ja".data

/-- The `for entry in feed.entries[:num]` loop of app.py:145-174 over
the already-taken entry list: build one article per entry, in order; a
raised `AttributeError` aborts the loop and propagates. -/
def buildArticles : List Entry → Except PyError (List Article)
  | [] => .ok []
  | e :: es => do
    let a ← mkArticle e
    let rest ← buildArticles es
    return a :: rest

/-- The fetcher `fetch_news(query, num)` (app.py:136-175) over an
already parsed feed: take at most `num` entries in feed order and build
an article from each; an `AttributeError` raised inside the loop
escapes. -/
def fetch_news (query : List Char) (num : Nat) (feed : Feed) :
    Except PyError (List Article × List Char) := do
  let url := buildUrl query
  let articles ← buildArticles (feed.entries.take num)
  return (articles, url)

/-- The two layout columns created by `st.columns(2)` (app.py:256). -/
inductive Column where
  | left
  | right
deriving DecidableEq, Repr

/-- Placement `target = left if idx % 2 == 0 else right` (app.py:258). -/
def cardColumn (idx : Nat) : Column :=
  if idx % 2 = 0 then .left else .right

/-- The card markup written at app.py:260-268: the adjacent f-string
pieces concatenate, with the four article fields interpolated between
the literal chunks. -/
def renderCard (a : Article) : List Char :=
  "<div class=\"news-card\">  <div class=\"card-title\">".data ++ a.title ++
  "</div>  <div class=\"card-date\">🗓️ ".data ++ a.published ++
  "</div>  <div class=\"card-summary\">".data ++ a.summary ++
  "</div>  <div class=\"card-link\">    ".data ++
  ("<a href=\"".data ++ a.link ++ "\" target=\"_blank\">".data) ++
  "📖 元記事を読む</a>  </div></div>".data

/-- Modelled from the spec: Streamlit's `st.session_state` (third-party
code, not in the repository) as far as app.py uses it — the single
transient key `"quick_query"`. -/
structure SessionState where
  quick_query : Option (List Char)
deriving DecidableEq, Repr

/-- The button handler's `st.session_state["quick_query"] = tag`
(app.py:198), before the rerun. -/
def pressQuickTag (tag : List Char) (_s : SessionState) : SessionState :=
  ⟨some tag⟩

/-- Dictionary pop with default:
`st.session_state.pop("quick_query", "Artificial Intelligence")`
(app.py:180) returns and removes the pending override, or the default. -/
def popQuickQuery (s : SessionState) : List Char × SessionState :=
  match s.quick_query with
  | some v => (v, ⟨none⟩)
  | none => ("Artificial Intelligence".data, ⟨none⟩)

/-- Modelled from the spec: one render cycle of the sidebar query
widget (app.py:180-188).  The text widget has no persistent key, so on
the cycle right after a quick-tag press it shows and returns the popped
override as its value; with no pending override it returns the field's
current text.  The override key is removed either way. -/
def renderCycleQuery (fieldText : List Char) (s : SessionState) :
    List Char × SessionState :=
  match s.quick_query with
  | some tag => (tag, ⟨none⟩)
  | none => (fieldText, ⟨none⟩)

/-- Modelled from the spec: one slot of Streamlit's `st.cache_data`
store — a memoized value for one argument tuple with its store time. -/
structure CacheEntry where
  key : List Char × Nat
  value : List Article × List Char
  storedAt : Nat
deriving DecidableEq, Repr

/-- Modelled from the spec: `@st.cache_data(ttl=300)` lookup
(app.py:135) — a stored value for the argument tuple is served while it
is younger than 300 seconds. -/
def cacheLookup (c : List CacheEntry) (k : List Char × Nat) (now : Nat) :
    Option (List Article × List Char) :=
  match c.find? (fun e => e.key == k) with
  | some e => if now < e.storedAt + 300 then some e.value else none
  | none => none

/-- Modelled from the spec: a call to the cached `fetch_news`
(app.py:135-136, 222).  Returns the result, the new cache, and whether
an outbound network fetch was performed. -/
def cachedFetchNews (doFetch : List Char → Nat → List Article × List Char)
    (c : List CacheEntry) (now : Nat) (q : List Char) (n : Nat) :
    (List Article × List Char) × List CacheEntry × Bool :=
  match cacheLookup c (q, n) now with
  | some v => (v, c, false)
  | none =>
    let v := doFetch q n
    (v, ⟨(q, n), v, now⟩ :: c.filter (fun e => !(e.key == (q, n))), true)

/-- The published-field derivation as the specification words it: a
provided (truthy) structured publish time is formatted; if that
formatting fails, the raw textual field is used (empty if absent); with
no structured time, the raw textual field is used directly, else the
empty string.  Kept separate from `publishedOf` (the code's
computation) to state their agreement. -/
def publishedSpec (e : Entry) : List Char :=
  match e.published_parsed with
  | some (p :: ps) =>
    match formatPublished (p :: ps) with
    | some s => s
    | none => e.published.getD []
  | _ => e.published.getD []

/-! Helper lemmas. -/

theorem buildArticles_forall₂ (es : List Entry) (arts : List Article)
    (h : buildArticles es = .ok arts) :
    List.Forall₂ (fun e a => mkArticle e = .ok a) es arts := by
  induction es generalizing arts with
  | nil =>
    simp only [buildArticles] at h
    cases h
    exact .nil
  | cons e es ih =>
    cases hm : mkArticle e with
    | error err => simp [buildArticles, hm, Bind.bind, Except.bind] at h
    | ok a =>
      cases hb : buildArticles es with
      | error err => simp [buildArticles, hm, hb, Bind.bind, Except.bind] at h
      | ok rest =>
        simp only [buildArticles, hm, hb, Bind.bind, Except.bind, pure,
          Except.pure, Except.ok.injEq] at h
        subst h
        exact .cons hm (ih rest hb)

theorem fetch_news_ok (q : List Char) (n : Nat) (feed : Feed)
    (arts : List Article) (u : List Char)
    (h : fetch_news q n feed = .ok (arts, u)) :
    buildArticles (feed.entries.take n) = .ok arts ∧ u = buildUrl q := by
  cases hb : buildArticles (feed.entries.take n) with
  | error err => simp [fetch_news, hb, Bind.bind, Except.bind] at h
  | ok l =>
    simp only [fetch_news, hb, Bind.bind, Except.bind, pure, Except.pure,
      Except.ok.injEq, Prod.mk.injEq] at h
    exact ⟨by rw [h.1], h.2.symm⟩

theorem mkArticle_ok_fields (e : Entry) (a : Article)
    (h : mkArticle e = .ok a) :
    (∃ t, e.title = some t ∧ a.title = pyEscape t) ∧
    e.link = some a.link ∧
    a.published = publishedOf e ∧
    a.summary = (if (truncatedSummary e).isEmpty then summaryPlaceholder
                 else pyEscape (truncatedSummary e)) := by
  unfold mkArticle at h
  cases ht : e.title with
  | none => rw [ht] at h; simp at h
  | some t =>
    cases hl : e.link with
    | none => rw [ht, hl] at h; simp at h
    | some l =>
      rw [ht, hl] at h
      simp only [Except.ok.injEq] at h
      subst h
      exact ⟨⟨t, rfl, rfl⟩, rfl, rfl, rfl⟩

theorem truncatedSummary_length_le (e : Entry) :
    (truncatedSummary e).length ≤ 301 := by
  unfold truncatedSummary
  split_ifs with h
  · rw [List.length_append, List.length_take,
      show ("…".data).length = 1 from rfl]
    omega
  · omega

theorem escapeChar_no_angle (c : Char) :
    '<' ∉ escapeChar c ∧ '>' ∉ escapeChar c := by
  unfold escapeChar
  split_ifs with h1 h2 h3 h4 h5
  · decide
  · decide
  · decide
  · decide
  · decide
  · constructor <;> simp only [List.mem_singleton] <;> intro hx
    · exact h2 hx.symm
    · exact h3 hx.symm

theorem pyEscape_no_angle (l : List Char) :
    '<' ∉ pyEscape l ∧ '>' ∉ pyEscape l := by
  constructor <;> intro hmem <;>
    · unfold pyEscape at hmem
      rw [List.mem_flatten] at hmem
      obtain ⟨piece, hp, hc⟩ := hmem
      rw [List.mem_map] at hp
      obtain ⟨c, _, rfl⟩ := hp
      first
      | exact (escapeChar_no_angle c).1 hc
      | exact (escapeChar_no_angle c).2 hc

theorem pyEscape_append (l₁ l₂ : List Char) :
    pyEscape (l₁ ++ l₂) = pyEscape l₁ ++ pyEscape l₂ := by
  unfold pyEscape
  rw [List.map_append, List.flatten_append]

theorem pyEscape_ellipsis_concat (l : List Char) :
    pyEscape (l ++ "…".data) = pyEscape l ++ "…".data := by
  rw [pyEscape_append]
  rfl

theorem buildArticles_total (es : List Entry)
    (h : ∀ e ∈ es, e.title.isSome ∧ e.link.isSome) :
    ∃ arts, buildArticles es = .ok arts := by
  induction es with
  | nil => exact ⟨[], rfl⟩
  | cons e es ih =>
    obtain ⟨ht, hl⟩ := h e (List.mem_cons_self e es)
    obtain ⟨t, hts⟩ := Option.isSome_iff_exists.mp ht
    obtain ⟨l, hls⟩ := Option.isSome_iff_exists.mp hl
    obtain ⟨rest, hrest⟩ := ih (fun x hx => h x (List.mem_cons_of_mem e hx))
    refine ⟨{ title := pyEscape t, link := l, published := publishedOf e,
              summary := if (truncatedSummary e).isEmpty then summaryPlaceholder
                         else pyEscape (truncatedSummary e) } :: rest, ?_⟩
    simp only [buildArticles, mkArticle, hts, hls, hrest, Bind.bind,
      Except.bind, pure, Except.pure]

/-! Concrete fixtures used by witnesses and counterexamples. -/

/-- An entry with markup in title and a long (400-character) summary. -/
def entryFull : Entry :=
  { title := some "<b>AI</b> 最新情報".data
    link := some "https://example.com/a?x=1&y=2".data
    published_parsed := some [2024, 5, 3, 7, 8, 0, 4, 124, 0]
    published := some "Fri, 03 May 2024 07:08:00 GMT".data
    summary := some ("<p>".data ++ List.replicate 400 'x' ++ "</p>".data) }

/-- An entry with no summary, no raw date and a falsy structured time. -/
def entryShort : Entry :=
  { title := some "Title".data
    link := some "https://example.com/b".data
    published_parsed := some []
    published := none
    summary := none }

/-- An entry with only a raw textual date and a short summary. -/
def entryThird : Entry :=
  { title := some "C".data
    link := some "https://example.com/c".data
    published_parsed := none
    published := some "yesterday".data
    summary := some "short & sweet".data }

/-- A three-entry feed, as in the spec's fixed fake-feed scenario. -/
def feed3 : Feed := ⟨[entryFull, entryShort, entryThird]⟩

/-- The fetch of `feed3` with limit 2. -/
def fetch3 : Except PyError (List Article × List Char) :=
  fetch_news "AI news".data 2 feed3

/-- The article list of `fetch3`. -/
def arts3 : List Article := (fetch3.toOption.getD ([], [])).1

/-- The request URL of `fetch3`. -/
def url3 : List Char := (fetch3.toOption.getD ([], [])).2

/-- The article built from `entryFull` alone. -/
def art1 : Article := (mkArticle entryFull).toOption.getD ⟨[], [], [], []⟩

/-- The article built from `entryThird` alone. -/
def art3 : Article := (mkArticle entryThird).toOption.getD ⟨[], [], [], []⟩

/-- An entry whose summary is 61 ampersands: short enough to escape
truncation, long enough that HTML-escaping quintuples it past 301. -/
def entryAmp : Entry :=
  { title := some "t".data
    link := some "https://example.com/d".data
    published_parsed := none
    published := none
    summary := some (List.replicate 61 '&') }

/-- A single-entry feed around `entryAmp`. -/
def feedAmp : Feed := ⟨[entryAmp]⟩

/-- A feed entry carrying none of the five attributes. -/
def entryBare : Entry := ⟨none, none, none, none, none⟩

/-- A fetch function stub for exercising the cache model. -/
def doFetchW : List Char → Nat → List Article × List Char :=
  fun q _ => ([], q)

/-! The claims. -/

/-- C5: for every feed entry, the article's `published` field follows
the spec's derivation: a provided (truthy) structured publish time is
formatted with `strftime("%Y年%m月%d日 %H:%M")`; if that fails the raw
textual field is used (empty string if absent); with no structured time
the raw textual field is used directly; otherwise it is empty. -/
theorem C5_published_derivation (e : Entry) (a : Article)
    (h : mkArticle e = .ok a) : a.published = publishedSpec e := by
  rw [(mkArticle_ok_fields e a h).2.2.1]
  unfold publishedOf publishedSpec
  cases hpp : e.published_parsed with
  | none => cases e.published <;> rfl
  | some parts =>
    cases parts with
    | nil => cases e.published <;> rfl
    | cons p ps =>
      simp only [List.isEmpty_cons]
      cases formatPublished (p :: ps) with
      | none => cases e.published <;> rfl
      | some s => rfl

/-- C5 witness: the published field of the article built from
`entryFull` agrees with the spec's derivation. -/
theorem C5_published_derivation_witness : art1.published = publishedSpec entryFull :=
  C5_published_derivation entryFull art1 rfl

/-- C8: pressing the quick-tag button labelled "LLM" makes the next
render cycle's query "LLM" regardless of the text field's prior value,
and the override is consumed exactly once: the following cycle without
a new press returns the field's own text again. -/
theorem C8_quick_tag_once (prior : List Char) (s : SessionState) :
    (renderCycleQuery prior (pressQuickTag "LLM".data s)).1 = "LLM".data ∧
    ∀ prior2 : List Char,
      (renderCycleQuery prior2
        (renderCycleQuery prior (pressQuickTag "LLM".data s)).2).1 = prior2 :=
  ⟨rfl, fun _ => rfl⟩

/-- C9: in the two-column card grid, the card at 0-based index `i` of
the result list goes to the left column when `i` is even and to the
right column when `i` is odd. -/
theorem C9_card_placement (arts : List Article) (i : Nat)
    (_h : i < arts.length) :
    (i % 2 = 0 → cardColumn i = Column.left) ∧
    (i % 2 = 1 → cardColumn i = Column.right) := by
  constructor <;> intro h2 <;> simp [cardColumn, h2]

/-- C9 witness: in the two-article result of the `feed3` fetch, index 1
is odd and its card goes to the right column. -/
theorem C9_card_placement_witness : 1 % 2 = 1 ∧ cardColumn 1 = Column.right :=
  ⟨by decide, (C9_card_placement arts3 1 (by decide)).2 (by decide)⟩

/-- C3 (amended): when retrieval or parsing fails outright the parsed
feed has no entries and `fetch_news` returns the empty article list
with the request URL; and whenever every processed entry carries the
`title` and `link` attributes, no exception escapes.  (An entry missing
either attribute raises `AttributeError`, see the counterexample.) -/
theorem C3_failure_absorbed (q : List Char) (n : Nat) (feed : Feed) :
    (feed.entries = [] → fetch_news q n feed = .ok ([], buildUrl q)) ∧
    ((∀ e ∈ feed.entries.take n, e.title.isSome ∧ e.link.isSome) →
      ∃ arts, fetch_news q n feed = .ok (arts, buildUrl q)) := by
  constructor
  · intro h
    simp only [fetch_news, h, List.take_nil, buildArticles, Bind.bind,
      Except.bind, pure, Except.pure]
  · intro h
    obtain ⟨arts, harts⟩ := buildArticles_total _ h
    exact ⟨arts, by
      simp only [fetch_news, harts, Bind.bind, Except.bind, pure, Except.pure]⟩

/-- C3 witness: on an empty parsed feed (the failure case) the fetch
with query "AI" and limit 10 yields no articles and the request URL. -/
theorem C3_failure_absorbed_witness :
    fetch_news "AI".data 10 ⟨[]⟩ = .ok ([], buildUrl "AI".data) :=
  (C3_failure_absorbed "AI".data 10 ⟨[]⟩).1 rfl

/-- C3 counterexample: the claim that no exception ever escapes the
fetcher fails — an entry carrying no `title` attribute makes
`fetch_news` raise `AttributeError` (the direct `entry.title` access at
app.py:166 is unguarded). -/
theorem C3_counterexample :
    fetch_news "x".data 5 ⟨[entryBare]⟩ = .error .attributeError := rfl

/-- The article list computed from the ampersand feed. -/
def artsAmp : List Article :=
  ((fetch_news "AI".data 5 feedAmp).toOption.getD ([], [])).1

/-- The request URL computed from the ampersand feed fetch. -/
def urlAmp : List Char :=
  ((fetch_news "AI".data 5 feedAmp).toOption.getD ([], [])).2

/-- C1 (amended): for every article of a successful fetch, the summary
text after stripping and truncation — before HTML-escaping — has at
most 301 characters (300 plus the ellipsis mark), and the stored
summary field is the HTML-escape of that text, or the placeholder when
it is empty.  The stored field itself can exceed 301 characters because
escaping expands special characters (see the counterexample). -/
theorem C1_summary_truncation_bound (q : List Char) (n : Nat) (feed : Feed)
    (arts : List Article) (u : List Char)
    (hok : fetch_news q n feed = .ok (arts, u)) (i : Nat)
    (hi : i < (feed.entries.take n).length) (hi' : i < arts.length) :
    (truncatedSummary ((feed.entries.take n).get ⟨i, hi⟩)).length ≤ 301 ∧
    ((arts.get ⟨i, hi'⟩).summary =
        pyEscape (truncatedSummary ((feed.entries.take n).get ⟨i, hi⟩)) ∨
      (arts.get ⟨i, hi'⟩).summary = summaryPlaceholder) := by
  obtain ⟨hb, -⟩ := fetch_news_ok q n feed arts u hok
  have hf := buildArticles_forall₂ _ _ hb
  rw [List.forall₂_iff_get] at hf
  have hm := hf.2 i hi hi'
  have hs := (mkArticle_ok_fields _ _ hm).2.2.2
  refine ⟨truncatedSummary_length_le _, ?_⟩
  rw [hs]
  split_ifs
  · exact Or.inr rfl
  · exact Or.inl rfl

/-- C1 witness: at index 0 of the `feed3` fetch (a 400-character source
summary) the truncated text is within 301 characters and the stored
field is its HTML-escape. -/
theorem C1_summary_truncation_bound_witness :
    (truncatedSummary ((feed3.entries.take 2).get ⟨0, by decide⟩)).length ≤ 301 ∧
    ((arts3.get ⟨0, by decide⟩).summary =
        pyEscape (truncatedSummary ((feed3.entries.take 2).get ⟨0, by decide⟩)) ∨
      (arts3.get ⟨0, by decide⟩).summary = summaryPlaceholder) :=
  C1_summary_truncation_bound "AI news".data 2 feed3 arts3 url3 rfl 0
    (by decide) (by decide)

/-- C1 counterexample: the claim's bound on the stored field is false —
a 61-ampersand summary passes truncation untouched but HTML-escaping
expands it to 305 characters, exceeding 301. -/
theorem C1_counterexample :
    ¬ (∀ (q : List Char) (n : Nat) (feed : Feed) (arts : List Article)
        (u : List Char), fetch_news q n feed = .ok (arts, u) →
        ∀ a ∈ arts, a.summary.length ≤ 301) := by
  intro hcl
  have h := hcl "AI".data 5 feedAmp artsAmp urlAmp rfl
    (artsAmp.get ⟨0, by decide⟩) (List.get_mem artsAmp 0 (by decide))
  have hlen : (artsAmp.get ⟨0, by decide⟩).summary.length = 305 := by decide
  rw [hlen] at h
  exact absurd h (by decide)

/-- C2: every returned article's title and summary contain no `<` and
no `>` character at all — the title is HTML-escaped and the summary is
tag-stripped and then HTML-escaped, so no upstream markup survives. -/
theorem C2_fields_escaped (q : List Char) (n : Nat) (feed : Feed)
    (arts : List Article) (u : List Char)
    (hok : fetch_news q n feed = .ok (arts, u)) (a : Article)
    (ha : a ∈ arts) :
    '<' ∉ a.title ∧ '>' ∉ a.title ∧ '<' ∉ a.summary ∧ '>' ∉ a.summary := by
  obtain ⟨hb, -⟩ := fetch_news_ok q n feed arts u hok
  have hf := buildArticles_forall₂ _ _ hb
  rw [List.forall₂_iff_get] at hf
  rw [List.mem_iff_get] at ha
  obtain ⟨⟨i, hi'⟩, rfl⟩ := ha
  have hi : i < (feed.entries.take n).length := by rw [hf.1]; exact hi'
  have hm := hf.2 i hi hi'
  obtain ⟨⟨t, -, htitle⟩, -, -, hsum⟩ := mkArticle_ok_fields _ _ hm
  refine ⟨?_, ?_, ?_, ?_⟩
  · rw [htitle]; exact (pyEscape_no_angle t).1
  · rw [htitle]; exact (pyEscape_no_angle t).2
  · rw [hsum]
    split_ifs
    · decide
    · exact (pyEscape_no_angle _).1
  · rw [hsum]
    split_ifs
    · decide
    · exact (pyEscape_no_angle _).2

/-- C2 witness: the article built from `entryFull` (whose title and
summary carry markup) has no angle bracket in title or summary. -/
theorem C2_fields_escaped_witness :
    '<' ∉ (arts3.get ⟨0, by decide⟩).title ∧
    '>' ∉ (arts3.get ⟨0, by decide⟩).title ∧
    '<' ∉ (arts3.get ⟨0, by decide⟩).summary ∧
    '>' ∉ (arts3.get ⟨0, by decide⟩).summary :=
  C2_fields_escaped "AI news".data 2 feed3 arts3 url3 rfl _
    (List.get_mem arts3 0 (by decide))

/-- C4: whenever the stripped source summary of an entry is longer than
300 characters, the corresponding article's stored summary field ends
with the ellipsis mark. -/
theorem C4_long_summary_ellipsis (q : List Char) (n : Nat) (feed : Feed)
    (arts : List Article) (u : List Char)
    (hok : fetch_news q n feed = .ok (arts, u)) (i : Nat)
    (hi : i < (feed.entries.take n).length) (hi' : i < arts.length)
    (hlong : 300 < (strippedSummary ((feed.entries.take n).get ⟨i, hi⟩)).length) :
    ((arts.get ⟨i, hi'⟩).summary).getLast? = some '…' := by
  obtain ⟨hb, -⟩ := fetch_news_ok q n feed arts u hok
  have hf := buildArticles_forall₂ _ _ hb
  rw [List.forall₂_iff_get] at hf
  have hm := hf.2 i hi hi'
  have hsum := (mkArticle_ok_fields _ _ hm).2.2.2
  have htr : truncatedSummary ((feed.entries.take n).get ⟨i, hi⟩) =
      (strippedSummary ((feed.entries.take n).get ⟨i, hi⟩)).take 300 ++ "…".data := by
    unfold truncatedSummary
    rw [if_pos hlong]
  have hne : ¬ ((truncatedSummary ((feed.entries.take n).get ⟨i, hi⟩)).isEmpty = true) := by
    rw [htr]
    intro hx
    rw [List.isEmpty_iff] at hx
    have := congrArg List.length hx
    rw [List.length_append, List.length_nil,
      show ("…".data).length = 1 from rfl] at this
    omega
  rw [hsum, if_neg hne, htr, pyEscape_ellipsis_concat]
  exact List.getLast?_concat _

/-- C4 witness: index 0 of the `feed3` fetch has a 400-character
stripped summary, and its stored summary ends with the ellipsis. -/
theorem C4_long_summary_ellipsis_witness :
    ((arts3.get ⟨0, by decide⟩).summary).getLast? = some '…' :=
  C4_long_summary_ellipsis "AI news".data 2 feed3 arts3 url3 rfl 0
    (by decide) (by decide) (by decide)

/-- C6: a successful fetch returns `min limit entries` articles — at
most `limit`, all entries when `limit` exceeds the feed — and the
article at each index is built from the feed entry at the same index,
so feed order is preserved with no re-sorting. -/
theorem C6_take_in_feed_order (q : List Char) (n : Nat) (feed : Feed)
    (arts : List Article) (u : List Char)
    (hok : fetch_news q n feed = .ok (arts, u)) :
    arts.length = min n feed.entries.length ∧
    ∀ (i : Nat) (hi : i < (feed.entries.take n).length) (hi' : i < arts.length),
      mkArticle ((feed.entries.take n).get ⟨i, hi⟩) = .ok (arts.get ⟨i, hi'⟩) := by
  obtain ⟨hb, -⟩ := fetch_news_ok q n feed arts u hok
  have hf := buildArticles_forall₂ _ _ hb
  rw [List.forall₂_iff_get] at hf
  constructor
  · rw [← hf.1, List.length_take]
  · exact hf.2

/-- C6 witness: the 3-entry feed fetched with limit 2 returns exactly 2
articles, built in order from entries 0 and 1. -/
theorem C6_take_in_feed_order_witness :
    arts3.length = min 2 feed3.entries.length ∧
    mkArticle ((feed3.entries.take 2).get ⟨0, by decide⟩) =
      .ok (arts3.get ⟨0, by decide⟩) ∧
    mkArticle ((feed3.entries.take 2).get ⟨1, by decide⟩) =
      .ok (arts3.get ⟨1, by decide⟩) :=
  ⟨(C6_take_in_feed_order "AI news".data 2 feed3 arts3 url3 rfl).1,
   (C6_take_in_feed_order "AI news".data 2 feed3 arts3 url3 rfl).2 0
     (by decide) (by decide),
   (C6_take_in_feed_order "AI news".data 2 feed3 arts3 url3 rfl).2 1
     (by decide) (by decide)⟩

/-- C7: starting from a cache that misses the key, the first call
fetches over the network and stores; a second call with the same
(query, limit) strictly inside the 300-second window returns the
identical value with no network call, while a call at or past the
window's end performs a new network fetch. -/
theorem C7_cache_window (doFetch : List Char → Nat → List Article × List Char)
    (c : List CacheEntry) (t1 t2 : Nat) (q : List Char) (n : Nat)
    (hmiss : cacheLookup c (q, n) t1 = none) :
    (cachedFetchNews doFetch c t1 q n).1 = doFetch q n ∧
    (cachedFetchNews doFetch c t1 q n).2.2 = true ∧
    (t2 < t1 + 300 →
      (cachedFetchNews doFetch (cachedFetchNews doFetch c t1 q n).2.1 t2 q n).1 =
        (cachedFetchNews doFetch c t1 q n).1 ∧
      (cachedFetchNews doFetch (cachedFetchNews doFetch c t1 q n).2.1 t2 q n).2.2 = false) ∧
    (t1 + 300 ≤ t2 →
      (cachedFetchNews doFetch (cachedFetchNews doFetch c t1 q n).2.1 t2 q n).2.2 = true) := by
  have h1 : cachedFetchNews doFetch c t1 q n =
      (doFetch q n,
        ⟨(q, n), doFetch q n, t1⟩ :: c.filter (fun e => !(e.key == (q, n))),
        true) := by
    unfold cachedFetchNews
    rw [hmiss]
  have hfind : ∀ t,
      cacheLookup
        (⟨(q, n), doFetch q n, t1⟩ :: c.filter (fun e => !(e.key == (q, n))))
        (q, n) t =
      if t < t1 + 300 then some (doFetch q n) else none := by
    intro t
    unfold cacheLookup
    rw [List.find?_cons_of_pos _ (by simp)]
  refine ⟨by rw [h1], by rw [h1], ?_, ?_⟩
  · intro ht
    rw [h1]
    simp [cachedFetchNews, hfind t2, ht]
  · intro ht
    rw [h1]
    simp [cachedFetchNews, hfind t2, if_neg (by omega : ¬ t2 < t1 + 300)]

/-- C7 witness: with an empty cache, query "AI" and limit 5, the call
at time 0 fetches, the call at time 100 is served from cache, and the
call at time 400 fetches again. -/
theorem C7_cache_window_witness :
    (cachedFetchNews doFetchW [] 0 "AI".data 5).2.2 = true ∧
    (cachedFetchNews doFetchW
      (cachedFetchNews doFetchW [] 0 "AI".data 5).2.1 100 "AI".data 5).2.2 = false ∧
    (cachedFetchNews doFetchW
      (cachedFetchNews doFetchW [] 0 "AI".data 5).2.1 400 "AI".data 5).2.2 = true :=
  ⟨(C7_cache_window doFetchW [] 0 100 "AI".data 5 rfl).2.1,
   ((C7_cache_window doFetchW [] 0 100 "AI".data 5 rfl).2.2.1 (by decide)).2,
   (C7_cache_window doFetchW [] 0 400 "AI".data 5 rfl).2.2.2 (by decide)⟩

/-- C10: the article's link is exactly the upstream entry's link string
— no escaping, validation or sanitization — and the rendered card
interpolates it verbatim into the href attribute of the anchor tag. -/
theorem C10_link_verbatim (e : Entry) (a : Article)
    (hok : mkArticle e = .ok a) :
    e.link = some a.link ∧
    ∃ pre post : List Char,
      renderCard a =
        pre ++ ("<a href=\"".data ++ a.link ++ "\" target=\"_blank\">".data) ++
          post := by
  obtain ⟨-, hl, -, -⟩ := mkArticle_ok_fields e a hok
  refine ⟨hl,
    "<div class=\"news-card\">  <div class=\"card-title\">".data ++ a.title ++
      "</div>  <div class=\"card-date\">🗓️ ".data ++ a.published ++
      "</div>  <div class=\"card-summary\">".data ++ a.summary ++
      "</div>  <div class=\"card-link\">    ".data,
    "📖 元記事を読む</a>  </div></div>".data, ?_⟩
  simp only [renderCard, List.append_assoc]

/-- C10 witness: the article built from `entryThird` carries that
entry's link unchanged. -/
theorem C10_link_verbatim_witness : entryThird.link = some art3.link :=
  (C10_link_verbatim entryThird art3 rfl).1

end AiNews
